import Mathlib

/-!
Verification of the state-transition core of the learn-redux repository:
the counter slice reducer (src/store/slices/counterSlice.ts), the todo
slice reducer and its selectors (src/store/slices/todoSlice.ts), and the
root composition (src/store/index.ts).

Modelling conventions:
* JavaScript numbers that hold integer quantities are modelled as Int
  (counter value, timestamps) or Nat (list lengths and counts); the one
  fractional computation (completionPercentage) is modelled with exact
  rational arithmetic Rat, with Math.round on a non-negative argument
  modelled as floor (q + 1/2).
* Date.now() and Math.random() inside the reducer are host
  non-determinism; they are modelled by an explicit oracle record Env
  carrying the generated id string and the current timestamp, passed to
  the todo reducer.  The counter reducer consults no such oracle.
* Redux actions are plain tagged records; both slice reducers receive
  every dispatched action and fall through to a default branch returning
  the input state for tags they do not recognize.  The Action type below
  is the sum of all recognized operation records of either slice plus a
  variant for any other tag string.
-/

namespace LearnRedux

/-- A todo item, translated from interface Todo of todoSlice.ts. -/
structure Todo where
  id : String
  text : String
  completed : Bool
  createdAt : Int
deriving DecidableEq, Repr

/-- The todo slice state, translated from interface TodoState.  The
filter field is modelled as a raw string because the reducer and the
selectors switch on it with a default branch, so out-of-enum values flow
through at runtime exactly like ALL. -/
structure TodoState where
  todos : List Todo
  filter : String
  searchTerm : String
deriving DecidableEq, Repr

/-- The counter slice state, translated from interface CounterState of
counterSlice.ts. -/
structure CounterState where
  value : Int
  lastAction : String
deriving DecidableEq, Repr

/-- The root state assembled by combineReducers in src/store/index.ts. -/
structure RootState where
  counter : CounterState
  todos : TodoState
deriving DecidableEq, Repr

/-- One dispatched operation record.  The first four variants carry the
counter slice tags, the next eight the todo slice tags, and other stands
for an action whose type string is none of the twelve recognized tags. -/
inductive Action where
  | increment : Action
  | decrement : Action
  | incrementByAmount : Int → Action
  | reset : Action
  | addTodo : String → Action
  | toggleTodo : String → Action
  | deleteTodo : String → Action
  | editTodo : String → String → Action
  | clearCompleted : Action
  | setFilter : String → Action
  | setSearchTerm : String → Action
  | markAllComplete : Action
  | other : String → Action
deriving DecidableEq, Repr

/-- Oracle record for the host non-determinism the todo reducer taps
when handling addTodo: the string produced by generateId (built from
Date.now() and Math.random()) and the Date.now() timestamp. -/
structure Env where
  newId : String
  now : Int
deriving DecidableEq, Repr

/-- Initial counter state of counterSlice.ts. -/
def counterInitialState : CounterState :=
  { value := 0, lastAction := "none" }

/-- The counter reducer, translated case by case from counterSlice.ts
lines 140-183.  The default branch returns the input state. -/
def counterReducer (state : CounterState) (action : Action) : CounterState :=
  match action with
  | .increment =>
      { state with value := state.value + 1, lastAction := "increment" }
  | .decrement =>
      { state with value := state.value - 1, lastAction := "decrement" }
  | .incrementByAmount n =>
      { state with value := state.value + n,
                   lastAction := "increment by " ++ toString n }
  | .reset =>
      { state with value := 0, lastAction := "reset" }
  | _ => state

/-- Initial todo state of todoSlice.ts, parameterized by the module-load
timestamp t0 standing for Date.now() at definition time. -/
def todoInitialState (t0 : Int) : TodoState :=
  { todos :=
      [ { id := "1", text := "Learn Redux fundamentals", completed := true,
          createdAt := t0 - 86400000 },
        { id := "2", text := "Build a todo app with Redux", completed := false,
          createdAt := t0 - 3600000 },
        { id := "3", text := "Master React-Redux patterns", completed := false,
          createdAt := t0 } ],
    filter := "ALL",
    searchTerm := "" }

/-- The todo reducer, translated case by case from todoSlice.ts lines
244-331.  The Env oracle supplies the generateId() result and Date.now()
used by the ADD_TODO branch; no other branch consults it.  The default
branch returns the input state. -/
def todoReducer (env : Env) (state : TodoState) (action : Action) : TodoState :=
  match action with
  | .addTodo text =>
      { state with todos :=
          { id := env.newId, text := text, completed := false,
            createdAt := env.now } :: state.todos }
  | .toggleTodo id =>
      { state with todos :=
          state.todos.map fun todo =>
            if todo.id = id then { todo with completed := !todo.completed }
            else todo }
  | .deleteTodo id =>
      { state with todos := state.todos.filter fun todo => todo.id ≠ id }
  | .editTodo id text =>
      { state with todos :=
          state.todos.map fun todo =>
            if todo.id = id then { todo with text := text } else todo }
  | .clearCompleted =>
      { state with todos := state.todos.filter fun todo => !todo.completed }
  | .setFilter f =>
      { state with filter := f }
  | .setSearchTerm s =>
      { state with searchTerm := s }
  | .markAllComplete =>
      let allCompleted := state.todos.all fun todo => todo.completed
      { state with todos :=
          state.todos.map fun todo => { todo with completed := !allCompleted } }
  | _ => state

/-- The root reducer produced by combineReducers in src/store/index.ts:
both slice reducers receive the same action and their results are
reassembled under the fixed keys. -/
def rootReducer (env : Env) (state : RootState) (action : Action) : RootState :=
  { counter := counterReducer state.counter action,
    todos := todoReducer env state.todos action }

/-- Boolean test that the first character list occurs at the head of the
second, used to model the JavaScript String.prototype.includes search. -/
def charsLead : List Char → List Char → Bool
  | [], _ => true
  | _ :: _, [] => false
  | a :: as, b :: bs => a == b && charsLead as bs

/-- Boolean test that the first character list occurs contiguously
somewhere in the second. -/
def charsHave (sub : List Char) : List Char → Bool
  | [] => charsLead sub []
  | c :: rest => charsLead sub (c :: rest) || charsHave sub rest

/-- Model of the JavaScript call hay.includes(sub): sub occurs as a
contiguous substring of hay. -/
def strIncludes (hay sub : String) : Bool :=
  charsHave sub.data hay.data

/-- The selectFilteredTodos selector, translated from todoSlice.ts lines
362-383: a truthiness test on searchTerm guards the case-insensitive
substring restriction, then a switch on filter with ACTIVE and COMPLETED
cases and a default (shared with ALL) that keeps everything. -/
def selectFilteredTodos (state : TodoState) : List Todo :=
  let todos := state.todos
  let filteredTodos :=
    if state.searchTerm ≠ "" then
      todos.filter fun todo => strIncludes todo.text.toLower state.searchTerm.toLower
    else todos
  match state.filter with
  | "ACTIVE" => filteredTodos.filter fun todo => !todo.completed
  | "COMPLETED" => filteredTodos.filter fun todo => todo.completed
  | _ => filteredTodos

/-- Follows the spec's words (§4.4), for comparison with
selectFilteredTodos: apply case-insensitive substring match of
searchTerm against each task's text (only if searchTerm is non-empty),
then apply the filter predicate — ACTIVE keeps tasks with
completed=false, COMPLETED keeps tasks with completed=true, ALL or any
other filter value keeps everything. -/
def specFilteredTodos (state : TodoState) : List Todo :=
  let afterSearch :=
    if state.searchTerm = "" then state.todos
    else state.todos.filter fun todo =>
      strIncludes todo.text.toLower state.searchTerm.toLower
  if state.filter = "ACTIVE" then afterSearch.filter fun todo => !todo.completed
  else if state.filter = "COMPLETED" then afterSearch.filter fun todo => todo.completed
  else afterSearch

/-- Result record of the selectTodoStats selector. -/
structure TodoStats where
  total : Nat
  completed : Nat
  active : Nat
  completionPercentage : Int
deriving DecidableEq, Repr

/-- Math.round on a non-negative argument, over exact rationals:
round half toward positive infinity. -/
def jsRound (q : Rat) : Int :=
  Int.floor (q + 1 / 2)

/-- The selectTodoStats selector, translated from todoSlice.ts lines
388-400, with the JavaScript number division modelled as exact rational
division. -/
def selectTodoStats (state : TodoState) : TodoStats :=
  let todos := state.todos
  let total := todos.length
  let completed := (todos.filter fun todo => todo.completed).length
  let active := total - completed
  { total := total, completed := completed, active := active,
    completionPercentage :=
      if total > 0 then jsRound ((completed : Rat) / (total : Rat) * 100) else 0 }

/-- Iterated dispatch on the counter slice: left fold of the counter
reducer over a list of operations. -/
def runCounter (s : CounterState) (ops : List Action) : CounterState :=
  ops.foldl counterReducer s

/-- Follows the spec's words (§8): the numeric effect of one operation
on a running value — increment contributes +1, decrement -1,
incrementByAmount N contributes +N, reset sets the running value to 0,
and every tag not recognized by the counter slice contributes nothing. -/
def counterEffect (acc : Int) (a : Action) : Int :=
  match a with
  | .increment => acc + 1
  | .decrement => acc - 1
  | .incrementByAmount n => acc + n
  | .reset => 0
  | _ => acc

/-- Follows the spec's words (§8), for comparison with runCounter: the
sum of the numeric effects of each recognized operation applied in
order, starting from 0. -/
def specCounterValue (ops : List Action) : Int :=
  ops.foldl counterEffect 0

/-- Iterated dispatch on the todo slice, each step paired with the
oracle value the reducer consumed at that step. -/
def runTodo (s : TodoState) : List (Action × Env) → TodoState
  | [] => s
  | (a, e) :: rest => runTodo (todoReducer e s a) rest

/-- The ids of the tasks of a todo state, in list order. -/
def todoIds (s : TodoState) : List String :=
  s.todos.map fun t => t.id

/-- Tag test: is this operation an addTodo record? -/
def isAddTodo : Action → Bool
  | .addTodo _ => true
  | _ => false

/-- A trace is fresh from a given state when, at every addTodo step, the
oracle-generated id differs from every id present in the state at that
step — the uniqueness obligation the spec places on generateId. -/
def freshTrace (s : TodoState) : List (Action × Env) → Bool
  | [] => true
  | (a, e) :: rest =>
      (!isAddTodo a || !(decide (e.newId ∈ todoIds s)))
        && freshTrace (todoReducer e s a) rest

/-- The four action tags the counter reducer recognizes. -/
def counterRecognized : Action → Bool
  | .increment | .decrement | .incrementByAmount _ | .reset => true
  | _ => false

/-- The eight action tags the todo reducer recognizes. -/
def todoRecognized : Action → Bool
  | .addTodo _ | .toggleTodo _ | .deleteTodo _ | .editTodo _ _
  | .clearCompleted | .setFilter _ | .setSearchTerm _ | .markAllComplete => true
  | _ => false

/-- Stepping the counter reducer tracks the spec's running
sum-of-effects from any starting state. -/
lemma runCounter_value_eq (ops : List Action) :
    ∀ s : CounterState, (runCounter s ops).value = ops.foldl counterEffect s.value := by
  induction ops with
  | nil => intro s; rfl
  | cons a rest ih =>
      intro s
      have hstep : runCounter s (a :: rest) = runCounter (counterReducer s a) rest := rfl
      rw [hstep, ih]
      have heff : (counterReducer s a).value = counterEffect s.value a := by
        cases a <;> rfl
      rw [List.foldl_cons, heff]

/-- C1: markAllComplete computes whether every task is completed; if all
are completed it clears every completed flag, otherwise it sets every
completed flag.  Applied when not all tasks are completed it sets every
flag to true, and applied again immediately afterwards it sets every
flag to false. -/
theorem markAllComplete_toggles_all :
    (∀ (e : Env) (s : TodoState),
        (todoReducer e s .markAllComplete).todos =
          s.todos.map fun t =>
            { t with completed := !(s.todos.all fun u => u.completed) })
    ∧ ∀ (e1 e2 : Env) (s : TodoState),
        (s.todos.all fun t => t.completed) = false →
          ((todoReducer e1 s .markAllComplete).todos.all fun t => t.completed) = true
          ∧ ((todoReducer e2 (todoReducer e1 s .markAllComplete) .markAllComplete).todos.all
              fun t => !t.completed) = true := by
  constructor
  · intro e s; rfl
  · intro e1 e2 s h
    have h1 : ((todoReducer e1 s .markAllComplete).todos.all fun t => t.completed) = true := by
      simp [todoReducer, h, List.all_map, Function.comp]
    refine ⟨h1, ?_⟩
    simp [todoReducer, h, h1, List.all_map, Function.comp]

/-- C1 witness: a concrete two-task state with one incomplete task. -/
theorem markAllComplete_toggles_all_witness :
    (([{ id := "1", text := "a", completed := true, createdAt := 0 },
       { id := "2", text := "b", completed := false, createdAt := 0 }].all
        fun t : Todo => t.completed) = false)
    ∧ ((todoReducer { newId := "x", now := 0 }
          { todos := [{ id := "1", text := "a", completed := true, createdAt := 0 },
                      { id := "2", text := "b", completed := false, createdAt := 0 }],
            filter := "ALL", searchTerm := "" } .markAllComplete).todos.all
        fun t => t.completed) = true
    ∧ ((todoReducer { newId := "y", now := 1 }
          (todoReducer { newId := "x", now := 0 }
            { todos := [{ id := "1", text := "a", completed := true, createdAt := 0 },
                        { id := "2", text := "b", completed := false, createdAt := 0 }],
              filter := "ALL", searchTerm := "" } .markAllComplete) .markAllComplete).todos.all
        fun t => !t.completed) = true :=
  ⟨by decide,
   (markAllComplete_toggles_all.2 { newId := "x", now := 0 } { newId := "y", now := 1 }
      { todos := [{ id := "1", text := "a", completed := true, createdAt := 0 },
                  { id := "2", text := "b", completed := false, createdAt := 0 }],
        filter := "ALL", searchTerm := "" } (by decide)).1,
   (markAllComplete_toggles_all.2 { newId := "x", now := 0 } { newId := "y", now := 1 }
      { todos := [{ id := "1", text := "a", completed := true, createdAt := 0 },
                  { id := "2", text := "b", completed := false, createdAt := 0 }],
        filter := "ALL", searchTerm := "" } (by decide)).2⟩

/-- C2: the counter value after any sequence of operations equals the
spec's sum of numeric effects applied in order from 0, and reset always
yields value 0 regardless of the prior value. -/
theorem counter_value_sum_of_effects :
    (∀ ops : List Action,
        (runCounter counterInitialState ops).value = specCounterValue ops)
    ∧ ∀ s : CounterState, (counterReducer s .reset).value = 0 := by
  constructor
  · intro ops
    exact runCounter_value_eq ops counterInitialState
  · intro s; rfl

/-- C4: an action whose tag is recognized by neither slice leaves each
slice's state unchanged — the reducers return the input state itself. -/
theorem unrecognized_tag_identity :
    (∀ (s : CounterState) (a : Action),
        counterRecognized a = false → counterReducer s a = s)
    ∧ ∀ (e : Env) (s : TodoState) (a : Action),
        todoRecognized a = false → todoReducer e s a = s := by
  constructor
  · intro s a h
    cases a <;> first | rfl | simp [counterRecognized] at h
  · intro e s a h
    cases a <;> first | rfl | simp [todoRecognized] at h

/-- C4 witness: a concrete unrecognized tag on concrete slice states. -/
theorem unrecognized_tag_identity_witness :
    counterRecognized (.other "app/boot") = false
    ∧ counterReducer { value := 5, lastAction := "none" } (.other "app/boot")
        = { value := 5, lastAction := "none" }
    ∧ todoRecognized (.other "app/boot") = false
    ∧ todoReducer { newId := "x", now := 0 }
        { todos := [], filter := "ALL", searchTerm := "" } (.other "app/boot")
        = { todos := [], filter := "ALL", searchTerm := "" } :=
  ⟨by decide,
   unrecognized_tag_identity.1 { value := 5, lastAction := "none" } (.other "app/boot") (by decide),
   by decide,
   unrecognized_tag_identity.2 { newId := "x", now := 0 }
     { todos := [], filter := "ALL", searchTerm := "" } (.other "app/boot") (by decide)⟩

/-- C6: toggling the same id twice restores every task's original
completed value — in fact the original list — and a single toggle never
changes any task's id or text. -/
theorem toggleTodo_involution (e1 e2 : Env) (s : TodoState) (i : String) :
    (todoReducer e2 (todoReducer e1 s (.toggleTodo i)) (.toggleTodo i)).todos = s.todos
    ∧ (todoReducer e1 s (.toggleTodo i)).todos.map (fun t => (t.id, t.text)) =
        s.todos.map fun t => (t.id, t.text) := by
  constructor
  · simp only [todoReducer]
    rw [List.map_map]
    apply List.map_id''
    intro t
    by_cases h : t.id = i
    · subst h
      simp [Function.comp, Bool.not_not]
    · simp [Function.comp, h]
  · simp only [todoReducer]
    rw [List.map_map]
    apply List.map_congr_left
    intro t _
    by_cases h : t.id = i
    · subst h
      simp [Function.comp]
    · simp [Function.comp, h]

/-- C9: addTodo prepends exactly one new task carrying the given text,
completed=false and the oracle's id and timestamp; the rest of the list
is the input list unchanged, and the length grows by one. -/
theorem addTodo_prepends (e : Env) (s : TodoState) (txt : String) :
    (todoReducer e s (.addTodo txt)).todos =
      { id := e.newId, text := txt, completed := false, createdAt := e.now } :: s.todos
    ∧ (todoReducer e s (.addTodo txt)).todos.length = s.todos.length + 1 := by
  refine ⟨rfl, ?_⟩
  simp [todoReducer]

/-- C10: the counter slice of the root transition never depends on the
id/timestamp oracle; the whole root transition is oracle-independent on
every action other than addTodo; and addTodo does depend on the oracle,
exhibited by two oracle values producing different states. -/
theorem addTodo_sole_nondeterminism :
    (∀ (e1 e2 : Env) (s : RootState) (a : Action),
        (rootReducer e1 s a).counter = (rootReducer e2 s a).counter)
    ∧ (∀ (e1 e2 : Env) (s : RootState) (a : Action),
        isAddTodo a = false → rootReducer e1 s a = rootReducer e2 s a)
    ∧ ∃ (e1 e2 : Env) (s : RootState) (txt : String),
        rootReducer e1 s (.addTodo txt) ≠ rootReducer e2 s (.addTodo txt) := by
  refine ⟨fun e1 e2 s a => rfl, ?_, ?_⟩
  · intro e1 e2 s a h
    cases a <;> first | rfl | simp [isAddTodo] at h
  · exact ⟨{ newId := "a", now := 0 }, { newId := "b", now := 0 },
      { counter := { value := 0, lastAction := "none" },
        todos := { todos := [], filter := "ALL", searchTerm := "" } }, "x", by decide⟩

/-- C7: an id matching no task makes toggleTodo, deleteTodo and
editTodo leave the todo list element-wise identical. -/
theorem unknown_id_noop (e : Env) (s : TodoState) (i txt : String)
    (h : i ∉ todoIds s) :
    (todoReducer e s (.toggleTodo i)).todos = s.todos
    ∧ (todoReducer e s (.deleteTodo i)).todos = s.todos
    ∧ (todoReducer e s (.editTodo i txt)).todos = s.todos := by
  have hid : ∀ t ∈ s.todos, t.id ≠ i := by
    intro t ht heq
    exact h (by simpa [todoIds] using ⟨t, ht, heq⟩)
  refine ⟨?_, ?_, ?_⟩
  · simp only [todoReducer]
    have h1 : ∀ t ∈ s.todos,
        (if t.id = i then { t with completed := !t.completed } else t) = id t := by
      intro t ht
      simp [hid t ht]
    rw [List.map_congr_left h1, List.map_id]
  · simp only [todoReducer]
    rw [List.filter_eq_self.mpr]
    intro t ht
    simp [hid t ht]
  · simp only [todoReducer]
    have h1 : ∀ t ∈ s.todos,
        (if t.id = i then { t with text := txt } else t) = id t := by
      intro t ht
      simp [hid t ht]
    rw [List.map_congr_left h1, List.map_id]

/-- C7 witness: a one-task state and an id that matches nothing. -/
theorem unknown_id_noop_witness :
    ("zzz" ∉ todoIds { todos := [{ id := "1", text := "a", completed := false, createdAt := 0 }],
                       filter := "ALL", searchTerm := "" })
    ∧ (todoReducer { newId := "x", now := 0 }
        { todos := [{ id := "1", text := "a", completed := false, createdAt := 0 }],
          filter := "ALL", searchTerm := "" } (.toggleTodo "zzz")).todos
        = [{ id := "1", text := "a", completed := false, createdAt := 0 }]
    ∧ (todoReducer { newId := "x", now := 0 }
        { todos := [{ id := "1", text := "a", completed := false, createdAt := 0 }],
          filter := "ALL", searchTerm := "" } (.deleteTodo "zzz")).todos
        = [{ id := "1", text := "a", completed := false, createdAt := 0 }] :=
  ⟨by decide,
   (unknown_id_noop { newId := "x", now := 0 }
      { todos := [{ id := "1", text := "a", completed := false, createdAt := 0 }],
        filter := "ALL", searchTerm := "" } "zzz" "t" (by decide)).1,
   (unknown_id_noop { newId := "x", now := 0 }
      { todos := [{ id := "1", text := "a", completed := false, createdAt := 0 }],
        filter := "ALL", searchTerm := "" } "zzz" "t" (by decide)).2.1⟩

/-- C10 witness: a non-addTodo action on a concrete state is
oracle-independent. -/
theorem addTodo_sole_nondeterminism_witness :
    isAddTodo .increment = false
    ∧ rootReducer { newId := "a", now := 0 }
        { counter := { value := 0, lastAction := "none" },
          todos := { todos := [], filter := "ALL", searchTerm := "" } } .increment
      = rootReducer { newId := "b", now := 1 }
        { counter := { value := 0, lastAction := "none" },
          todos := { todos := [], filter := "ALL", searchTerm := "" } } .increment :=
  ⟨by decide,
   addTodo_sole_nondeterminism.2.1 { newId := "a", now := 0 } { newId := "b", now := 1 }
     { counter := { value := 0, lastAction := "none" },
       todos := { todos := [], filter := "ALL", searchTerm := "" } } .increment (by decide)⟩

/-- C5: selectFilteredTodos agrees with the spec's pipeline — search
restriction first (only for a non-empty search term), then the filter
predicate with ACTIVE keeping not-completed, COMPLETED keeping
completed, and everything else keeping all; with filter ACTIVE and an
empty search term it returns exactly the not-completed tasks in their
original relative order. -/
theorem selectFilteredTodos_spec :
    (∀ s : TodoState, selectFilteredTodos s = specFilteredTodos s)
    ∧ ∀ todos : List Todo,
        selectFilteredTodos { todos := todos, filter := "ACTIVE", searchTerm := "" } =
          todos.filter fun t => !t.completed := by
  constructor
  · intro s
    simp only [selectFilteredTodos, specFilteredTodos]
    by_cases hs : s.searchTerm = "" <;>
      by_cases hA : s.filter = "ACTIVE" <;>
        by_cases hC : s.filter = "COMPLETED" <;>
          simp_all
  · intro todos
    rfl

/-- C8: selectTodoStats returns the list length, the count of completed
tasks, their difference, and the completion percentage rounded from the
exact rational 100 * completed / total (0 on an empty list). -/
theorem selectTodoStats_spec :
    (∀ s : TodoState,
        selectTodoStats s =
          { total := s.todos.length,
            completed := (s.todos.filter fun t => t.completed).length,
            active := s.todos.length - (s.todos.filter fun t => t.completed).length,
            completionPercentage :=
              if s.todos.length = 0 then 0
              else Int.floor
                ((100 * ((s.todos.filter fun t => t.completed).length : Rat))
                  / (s.todos.length : Rat) + 1 / 2) })
    ∧ selectTodoStats { todos := [], filter := "ALL", searchTerm := "" } =
        { total := 0, completed := 0, active := 0, completionPercentage := 0 } := by
  constructor
  · intro s
    simp only [selectTodoStats, jsRound]
    by_cases h : s.todos.length = 0
    · simp [h]
    · have hpos : 0 < s.todos.length := Nat.pos_of_ne_zero h
      simp only [hpos, if_true, h, if_false, TodoStats.mk.injEq, true_and]
      congr 1
      ring
  · rfl

/-- One reducer step preserves distinctness of the task ids, given that
an addTodo step receives an oracle id not already present. -/
lemma todoIds_step_nodup (e : Env) (s : TodoState) (a : Action)
    (hnd : (todoIds s).Nodup)
    (hfresh : isAddTodo a = true → e.newId ∉ todoIds s) :
    (todoIds (todoReducer e s a)).Nodup := by
  cases a with
  | addTodo txt =>
      have hids : todoIds (todoReducer e s (.addTodo txt)) = e.newId :: todoIds s := rfl
      rw [hids, List.nodup_cons]
      exact ⟨hfresh rfl, hnd⟩
  | toggleTodo i =>
      have hids : todoIds (todoReducer e s (.toggleTodo i)) = todoIds s := by
        simp only [todoIds, todoReducer, List.map_map]
        apply List.map_congr_left
        intro t _
        by_cases h : t.id = i <;> simp [Function.comp, h]
      rw [hids]; exact hnd
  | editTodo i txt =>
      have hids : todoIds (todoReducer e s (.editTodo i txt)) = todoIds s := by
        simp only [todoIds, todoReducer, List.map_map]
        apply List.map_congr_left
        intro t _
        by_cases h : t.id = i <;> simp [Function.comp, h]
      rw [hids]; exact hnd
  | markAllComplete =>
      have hids : todoIds (todoReducer e s .markAllComplete) = todoIds s := by
        simp only [todoIds, todoReducer, List.map_map]
        apply List.map_congr_left
        intro t _
        simp [Function.comp]
      rw [hids]; exact hnd
  | deleteTodo i =>
      exact List.Nodup.sublist (List.Sublist.map _ (List.filter_sublist _)) hnd
  | clearCompleted =>
      exact List.Nodup.sublist (List.Sublist.map _ (List.filter_sublist _)) hnd
  | increment => exact hnd
  | decrement => exact hnd
  | incrementByAmount n => exact hnd
  | reset => exact hnd
  | setFilter f => exact hnd
  | setSearchTerm v => exact hnd
  | other t => exact hnd

/-- Iterated dispatch preserves distinctness of the task ids along any
fresh trace. -/
lemma runTodo_nodup (trace : List (Action × Env)) :
    ∀ s : TodoState, (todoIds s).Nodup → freshTrace s trace = true →
      (todoIds (runTodo s trace)).Nodup := by
  induction trace with
  | nil => intro s h _; exact h
  | cons p rest ih =>
      obtain ⟨a, e⟩ := p
      intro s hnd hf
      simp only [freshTrace, Bool.and_eq_true, Bool.or_eq_true, Bool.not_eq_true',
        decide_eq_false_iff_not] at hf
      obtain ⟨h1, h2⟩ := hf
      apply ih _ _ h2
      apply todoIds_step_nodup e s a hnd
      intro hadd
      rcases h1 with h1 | h1
      · rw [hadd] at h1; cases h1
      · exact h1

/-- C3: from the initial todo state, every state reached by a trace of
operations whose addTodo steps draw fresh ids has pairwise-distinct
task ids. -/
theorem todo_ids_nodup_reachable (t0 : Int) (trace : List (Action × Env))
    (h : freshTrace (todoInitialState t0) trace = true) :
    (todoIds (runTodo (todoInitialState t0) trace)).Nodup := by
  apply runTodo_nodup trace _ _ h
  have hids : todoIds (todoInitialState t0) = ["1", "2", "3"] := rfl
  rw [hids]
  decide

/-- C3 witness: a concrete fresh trace adding then toggling a task. -/
theorem todo_ids_nodup_reachable_witness :
    freshTrace (todoInitialState 0)
      [(.addTodo "Buy milk", { newId := "id9", now := 7 }),
       (.toggleTodo "id9", { newId := "id10", now := 8 })] = true
    ∧ (todoIds (runTodo (todoInitialState 0)
        [(.addTodo "Buy milk", { newId := "id9", now := 7 }),
         (.toggleTodo "id9", { newId := "id10", now := 8 })])).Nodup :=
  ⟨by decide, todo_ids_nodup_reachable 0 _ (by decide)⟩

end LearnRedux
